import Mathlib

/-!
Registration of the documents view components (`initComponents.js`).

The file `vue-app/documents/initComponents.js` imports 68 single-file components, collects
them in the object literal `components` and runs

    for (const key in components) {
      Vue.component(key, components[key]);
    }

This development embeds the object, the loop and the host call, and proves the
registration contract.
-/

namespace InitComponents

universe u v w

/-! ## JavaScript objects with string keys -/

/-- A JavaScript object restricted to its own enumerable string-keyed properties, listed in
the order in which `for ... in` enumerates them. -/
structure JSObject (C : Type u) where
  props : List (String × C)
deriving DecidableEq, Repr

/-- The property lookup on a raw property list. -/
def getProp {C : Type u} : List (String × C) → String → Option C
  | [], _ => none
  | (k, v) :: rest, key => if key = k then some v else getProp rest key

/-- The assignment on a raw property list: an existing key keeps its place and takes the new
value, a new key goes last. -/
def setProp {C : Type u} : List (String × C) → String → C → List (String × C)
  | [], key, value => [(key, value)]
  | (k, v) :: rest, key, value =>
    if key = k then (k, value) :: rest else (k, v) :: setProp rest key value

/-- The object without properties, `{}`. -/
def JSObject.empty {C : Type u} : JSObject C := ⟨[]⟩

/-- The keys `for (const key in obj)` enumerates, in order. -/
def JSObject.keys {C : Type u} (obj : JSObject C) : List String :=
  obj.props.map Prod.fst

/-- The member access `obj[key]`; `none` stands for `undefined`. -/
def JSObject.get {C : Type u} (obj : JSObject C) (key : String) : Option C :=
  getProp obj.props key

/-- The assignment `obj[key] = value`. A key that is already present keeps its position in the
enumeration order, a new key is enumerated last (the order of keys that are not array
indices, which is what the component ids are). -/
def JSObject.set {C : Type u} (obj : JSObject C) (key : String) (value : C) : JSObject C :=
  ⟨setProp obj.props key value⟩

/-- The evaluation of an object literal `{ k1: v1, k2: v2, ... }`: the properties are defined
from left to right on a fresh object, so a key written twice keeps its first position and its
last value. -/
def objectLiteral {C : Type u} (entries : List (String × C)) : JSObject C :=
  entries.foldl (fun obj p => obj.set p.1 p.2) JSObject.empty

/-! ## The host registry -/

/-- The global component registry of the host framework, seen through its lookup: the
component registered under an id, if any. -/
abbrev Registry (C : Type u) := String → Option C

/-- The registry in which nothing is registered. -/
def Registry.empty {C : Type u} : Registry C := fun _ => none

/-- The lookup of an id in the registry. -/
def lookup {C : Type u} (r : Registry C) (id : String) : Option C := r id

/-- The insertion of a component under an id, overwriting what was registered there. -/
def register {C : Type u} (r : Registry C) (id : String) (definition : C) : Registry C :=
  fun k => if k = id then some definition else r k

/-- The outcome of a host call or of the loop: the state of the host afterwards, and the
exception thrown, if one was. -/
abbrev Outcome (R : Type v) (E : Type w) := R × Option E

/-- The type of a host registration primitive `register(key, component)` acting on a host
state `R` and throwing exceptions of type `E`. The second argument is a JavaScript value that
may be `undefined`. -/
abbrev Host (C : Type u) (R : Type v) (E : Type w) := String → Option C → R → Outcome R E

/-- Modelled from the spec: the host call `Vue.component(id, definition)`, which belongs to
the framework and not to this file, as the spec describes it: it inserts the definition under
the id in a key-value registry, overwrites what is there and does not fail. Called with an
undefined definition the host call only reads the registry. -/
def vueComponent {C : Type u} : Host C (Registry C) String
  | id, some definition, r => (register r id definition, none)
  | _, none, r => (r, none)

/-! ## The registration loop -/

/-- The body of `for (const key in components) { Vue.component(key, components[key]); }` over
the keys still to be enumerated. An exception thrown by the host call ends the loop and is
the exception of the loop; the host keeps the state the failing call left. -/
def registerLoop {C : Type u} {R : Type v} {E : Type w} (host : Host C R E)
    (components : JSObject C) : List String → R → Outcome R E
  | [], r => (r, none)
  | key :: rest, r =>
    match host key (components.get key) r with
    | (r', some e) => (r', some e)
    | (r', none) => registerLoop host components rest r'

/-- The statement `for (const key in components) { Vue.component(key, components[key]); }`
run against a host primitive. -/
def initComponents {C : Type u} {R : Type v} {E : Type w} (host : Host C R E)
    (components : JSObject C) (r : R) : Outcome R E :=
  registerLoop host components components.keys r

/-- The registry the loop leaves when the host call is `Vue.component`. -/
def initRegistry {C : Type u} (components : JSObject C) (r : Registry C) : Registry C :=
  (initComponents vueComponent components r).1

/-- A host primitive together with a record of the calls made to it: every call is appended
to the record with its two arguments, whether it returns or throws. -/
def recording {C : Type u} {R : Type v} {E : Type w} (host : Host C R E) :
    Host C (R × List (String × Option C)) E :=
  fun key value s =>
    match host key value s.1 with
    | (r', thrown) => ((r', s.2 ++ [(key, value)]), thrown)

/-- The calls `Vue.component(key, components[key])` the loop makes when no call throws: one
per enumerated key. -/
def JSObject.calls {C : Type u} (obj : JSObject C) : List (String × Option C) :=
  obj.keys.map (fun key => (key, obj.get key))

/-! ## The table of the documents application -/

/-- A component definition, an imported `.vue` module, named by its import binding. -/
abbrev Component := String

/-- The entries of the object literal `const components = { ... }`, as written. -/
def componentsLiteral : List (String × Component) := [
  ("documents-main", "DocumentsMain"),
  ("documents-header", "DocumentsHeader"),
  ("documents-header-left", "DocumentsHeaderLeft"),
  ("documents-add-new-file", "DocumentsAddNewFile"),
  ("documents-body", "DocumentsBody"),
  ("documents-no-body", "DocumentsNoBody"),
  ("documents-no-body-folder", "DocumentsNoBodyFolder"),
  ("documents-no-result-body", "DocumentsNoResultBody"),
  ("documents-folder-view", "DocumentsFolderView"),
  ("documents-timeline-view", "DocumentsTimelineView"),
  ("documents-timeline-group-header", "DocumentsTimelineGroupHeader"),
  ("documents-table-cell", "DocumentsTableCell"),
  ("documents-last-updated-cell", "DocumentsLastUpdatedCell"),
  ("documents-visibility-cell", "DocumentsVisibilityCell"),
  ("documents-file-size-cell", "DocumentsFileSizeCell"),
  ("documents-last-activity-cell", "DocumentsLastActivityCell"),
  ("documents-favorite-cell", "DocumentsFavoriteCell"),
  ("documents-favorite-action", "DocumentsFavoriteAction"),
  ("documents-file-name-cell", "DocumentsFileNameCell"),
  ("documents-file-edit-name-cell", "DocumentsFileEditNameCell"),
  ("documents-actions-menu", "DocumentActionMenu"),
  ("documents-actions-menu-mobile", "DocumentActionMenuMobile"),
  ("documents-add-new-menu-mobile", "DocumentAddNewMobile"),
  ("documents-advanced-filter-drawer", "DocumentAdvancedFilterDrawer"),
  ("documents-filter-menu-mobile", "DocumentFilterMenuMobile"),
  ("documents-info-drawer", "DocumentInfoDrawer"),
  ("documents-download-drawer", "DocumentDownloadDrawer"),
  ("documents-select-period", "SelectPeriod"),
  ("document-tree-selector-drawer", "DocumentsTreeSelectorDrawer"),
  ("documents-move-spaces", "DocumentsMoveSpaces"),
  ("documents-visibility-drawer", "DocumentsVisibilityDrawer"),
  ("documents-visibility-all-users-drawer", "DocumentsAllUsersVisibilityDrawer"),
  ("documents-visibility-collaborators", "DocumentsVisibilityCollaborators"),
  ("documents-visibility-menu", "DocumentsVisibilityMenu"),
  ("edit-menu-action", "EditMenuAction"),
  ("rename-menu-action", "RenameMenuAction"),
  ("download-menu-action", "DownloadMenuAction"),
  ("open-location-menu-action", "OpenLocationMenuAction"),
  ("open-read-only-menu-action", "OpenReadOnlyMenuAction"),
  ("move-menu-action", "MoveMenuAction"),
  ("duplicate-menu-action", "DuplicateMenuAction"),
  ("visibility-menu-action", "VisibilityMenuAction"),
  ("copy-link-menu-action", "CopyLinkMenuAction"),
  ("favorite-menu-action", "FavoriteMenuAction"),
  ("delete-menu-action", "DeleteMenuAction"),
  ("shortcut-menu-action", "ShortcutMenuAction"),
  ("documents-breadcrumb", "DocumentsBreadcrumb"),
  ("folder-treeview-drawer", "FolderTreeViewDrawer"),
  ("details-menu-action", "DetailsMenuAction"),
  ("documents-info-details-cell", "DocumentsInfoDetailsCell"),
  ("upload-overlay", "UploadOverlay"),
  ("versionHistory-menu-action", "VersionHistoryMenuAction"),
  ("favorite-filter-action", "FavoriteFilterActionMobile"),
  ("all-filter-action", "AllFilterActionMobile"),
  ("quick-filter-action", "QuickFilterActionMobile"),
  ("mobile-advanced-filter-action", "AdvancedFilterActionMobile"),
  ("extend-filter-action", "ExtendFilterActionMobile"),
  ("documents-selection-cell", "DocumentsSelectionCell"),
  ("document-action-context-menu", "DocumentActionContextMenu"),
  ("documents-size-cell", "DocumentsSizeCell"),
  ("upload-new-version-menu-action", "UploadNewVersionMenuAction"),
  ("public-document-options-drawer", "PublicDocumentOptionsDrawer"),
  ("document-import-from-zip-drawer", "DocumentImportFromZipDrawer"),
  ("documents-zip-upload-input", "AttachmentsUploadInput"),
  ("documents-zip-uploaded", "AttachmentsUploaded"),
  ("documents-zip-item", "AttachmentsItem"),
  ("documents-add-new-file-menu", "DocumentsAddNewFileMenu"),
  ("documents-multi-select-menu", "DocumentsMultiSelectMenu")
]

/-- The object `components`. -/
def components : JSObject Component := objectLiteral componentsLiteral

/-- The mapping `{"a": CompA, "b": CompB}` of the spec's concrete scenario. -/
def scenarioAB : JSObject Component := objectLiteral [("a", "CompA"), ("b", "CompB")]

/-- A mapping with three entries, `{"a": CompA, "b": CompB, "c": CompC}`. -/
def scenarioABC : JSObject Component :=
  objectLiteral [("a", "CompA"), ("b", "CompB"), ("c", "CompC")]

/-- A host primitive that rejects one id: called with that id it throws and leaves its
registry as it was; any other id is inserted or overwritten. Its registry is kept as an
object so that two states can be compared. -/
def rejectingHost {C : Type u} (bad : String) : Host C (JSObject C) String
  | id, some definition, r =>
    if id = bad then (r, some "RegistrationFailure") else (r.set id definition, none)
  | id, none, r => if id = bad then (r, some "RegistrationFailure") else (r, none)

/-! ## Properties of objects -/

section Objects

variable {C : Type u}

theorem getProp_eq_none_iff (l : List (String × C)) (key : String) :
    getProp l key = none ↔ key ∉ l.map Prod.fst := by
  induction l with
  | nil => simp [getProp]
  | cons p rest ih =>
    obtain ⟨k, v⟩ := p
    by_cases h : key = k
    · simp [getProp, h]
    · simp [getProp, h, ih]

theorem getProp_eq_some_iff (l : List (String × C)) (hnd : (l.map Prod.fst).Nodup)
    (key : String) (value : C) : getProp l key = some value ↔ (key, value) ∈ l := by
  induction l with
  | nil => simp [getProp]
  | cons p rest ih =>
    obtain ⟨k, v⟩ := p
    have hk : k ∉ rest.map Prod.fst := (List.nodup_cons.mp hnd).1
    have hrest : (rest.map Prod.fst).Nodup := (List.nodup_cons.mp hnd).2
    by_cases h : key = k
    · subst h
      have hnot : (key, value) ∉ rest := fun hm => hk (List.mem_map_of_mem Prod.fst hm)
      simp only [getProp, if_true, List.mem_cons, Prod.mk.injEq, true_and, Option.some.injEq]
      constructor
      · intro hv
        exact Or.inl hv.symm
      · rintro (hv | hm)
        · exact hv.symm
        · exact absurd hm hnot
    · simp [getProp, h, ih hrest]

theorem getProp_perm {l₁ l₂ : List (String × C)} (hp : l₁.Perm l₂)
    (hnd : (l₁.map Prod.fst).Nodup) (key : String) : getProp l₁ key = getProp l₂ key := by
  have hnd₂ : (l₂.map Prod.fst).Nodup := ((hp.map Prod.fst).nodup_iff).mp hnd
  apply Option.ext
  intro value
  rw [Option.mem_def, Option.mem_def, getProp_eq_some_iff l₁ hnd, getProp_eq_some_iff l₂ hnd₂]
  exact hp.mem_iff

theorem getProp_setProp (l : List (String × C)) (key : String) (value : C) (k : String) :
    getProp (setProp l key value) k = if k = key then some value else getProp l k := by
  induction l with
  | nil => simp [getProp, setProp]
  | cons p rest ih =>
    obtain ⟨k₀, v₀⟩ := p
    by_cases h : key = k₀
    · subst h
      by_cases hk : k = key <;> simp [getProp, setProp, hk]
    · by_cases hk : k = k₀
      · subst hk
        have h2 : ¬ k = key := fun e => h e.symm
        simp [getProp, setProp, h, h2]
      · simp [getProp, setProp, h, hk, ih]

theorem JSObject.get_set (obj : JSObject C) (key : String) (value : C) (k : String) :
    (obj.set key value).get k = if k = key then some value else obj.get k :=
  getProp_setProp obj.props key value k

theorem get_foldl_set_of_not_mem (entries : List (String × C)) (obj : JSObject C)
    (key : String) (hk : key ∉ entries.map Prod.fst) :
    (entries.foldl (fun o p => o.set p.1 p.2) obj).get key = obj.get key := by
  induction entries generalizing obj with
  | nil => rfl
  | cons p rest ih =>
    have h1 : ¬ key = p.1 := fun e => hk (by simp [e])
    have h2 : key ∉ rest.map Prod.fst := fun hm => hk (by simp at hm ⊢; exact Or.inr hm)
    rw [List.foldl_cons, ih _ h2, JSObject.get_set, if_neg h1]

theorem objectLiteral_get_last (front : List (String × C)) (key : String) (value : C)
    (back : List (String × C)) (hk : key ∉ back.map Prod.fst) :
    (objectLiteral (front ++ (key, value) :: back)).get key = some value := by
  unfold objectLiteral
  rw [List.foldl_append, List.foldl_cons, get_foldl_set_of_not_mem back _ key hk,
    JSObject.get_set, if_pos rfl]

theorem JSObject.get_eq_none_iff (obj : JSObject C) (key : String) :
    obj.get key = none ↔ key ∉ obj.keys :=
  getProp_eq_none_iff obj.props key

end Objects

/-! ## Properties of the loop -/

section Loop

variable {C : Type u} {R : Type v} {E : Type w}

theorem registerLoop_append (host : Host C R E) (obj : JSObject C) (front back : List String)
    (r : R) :
    registerLoop host obj (front ++ back) r =
      match registerLoop host obj front r with
      | (r₁, some e) => (r₁, some e)
      | (r₁, none) => registerLoop host obj back r₁ := by
  induction front generalizing r with
  | nil => rfl
  | cons key rest ih =>
    simp only [List.cons_append, registerLoop]
    rcases h : host key (obj.get key) r with ⟨r₁, _ | e⟩
    · exact ih r₁
    · rfl

theorem registerLoop_no_throw (host : Host C R E) (obj : JSObject C) (ks : List String)
    (hok : ∀ key ∈ ks, ∀ s, (host key (obj.get key) s).2 = none) (r : R) :
    (registerLoop host obj ks r).2 = none := by
  induction ks generalizing r with
  | nil => rfl
  | cons key rest ih =>
    have hkey := hok key (List.mem_cons_self _ _) r
    have hrest : ∀ k ∈ rest, ∀ s, (host k (obj.get k) s).2 = none :=
      fun k hk s => hok k (List.mem_cons_of_mem _ hk) s
    simp only [registerLoop]
    rcases h : host key (obj.get key) r with ⟨r₁, _ | e⟩
    · exact ih hrest r₁
    · rw [h] at hkey
      exact absurd hkey (by simp)

theorem registerLoop_recording (host : Host C R E) (obj : JSObject C) (ks : List String)
    (r : R) (log : List (String × Option C)) (hok : (registerLoop host obj ks r).2 = none) :
    registerLoop (recording host) obj ks (r, log) =
      (((registerLoop host obj ks r).1, log ++ ks.map (fun key => (key, obj.get key))),
        none) := by
  induction ks generalizing r log with
  | nil => simp [registerLoop]
  | cons key rest ih =>
    simp only [registerLoop, recording] at hok ⊢
    rcases h : host key (obj.get key) r with ⟨r₁, _ | e⟩
    · rw [h] at hok
      simp only at hok ⊢
      rw [ih r₁ _ hok]
      simp
    · rw [h] at hok
      simp at hok

theorem vueComponent_no_throw (id : String) (definition : Option C) (r : Registry C) :
    (vueComponent id definition r).2 = none := by
  cases definition <;> rfl

theorem registerLoop_vueComponent_lookup (obj : JSObject C) (ks : List String)
    (r : Registry C) (k : String) :
    (registerLoop vueComponent obj ks r).1 k =
      if k ∈ ks then (obj.get k).or (r k) else r k := by
  induction ks generalizing r with
  | nil => simp [registerLoop]
  | cons key rest ih =>
    cases hget : obj.get key with
    | none =>
      simp only [registerLoop, hget, vueComponent, ih]
      by_cases hk : k = key
      · subst hk
        simp [hget]
      · simp [hk]
    | some d =>
      simp only [registerLoop, hget, vueComponent, ih]
      by_cases hk : k = key
      · subst hk
        simp [hget, register]
      · simp [hk, register]

theorem initRegistry_apply (obj : JSObject C) (r : Registry C) (k : String) :
    initRegistry obj r k = (obj.get k).or (r k) := by
  unfold initRegistry initComponents
  rw [registerLoop_vueComponent_lookup]
  by_cases hk : k ∈ obj.keys
  · rw [if_pos hk]
  · rw [if_neg hk, (JSObject.get_eq_none_iff obj k).mpr hk]
    rfl

theorem JSObject.calls_eq_entries (obj : JSObject C) (hnd : obj.keys.Nodup) :
    obj.calls = obj.props.map (fun p => (p.1, some p.2)) := by
  unfold JSObject.calls JSObject.keys
  rw [List.map_map]
  apply List.map_congr_left
  intro p hp
  have hget : obj.get p.1 = some p.2 := (getProp_eq_some_iff obj.props hnd p.1 p.2).mpr hp
  simp [hget]

end Loop

/-! ## The registration contract -/

section Contract

variable {C : Type u} {R : Type v} {E : Type w}

/-- The spec's concrete scenario: after the loop has run on `{"a": CompA, "b": CompB}` from
the empty registry, `"a"` and `"b"` are found with their components and `"c"` is not. -/
theorem scenarioAB_lookups :
    lookup (initRegistry scenarioAB Registry.empty) "a" = some "CompA" ∧
    lookup (initRegistry scenarioAB Registry.empty) "b" = some "CompB" ∧
    lookup (initRegistry scenarioAB Registry.empty) "c" = none := by
  decide

/-- Claim C1: whatever the registry holds before the loop runs, every key of the mapping has
a component in the mapping, and a lookup of the key after the loop returns exactly that
component. -/
theorem lookup_after_init (obj : JSObject C) (r : Registry C) (key : String)
    (hkey : key ∈ obj.keys) :
    ∃ c, obj.get key = some c ∧ lookup (initRegistry obj r) key = some c := by
  cases hget : obj.get key with
  | none => exact absurd hkey ((JSObject.get_eq_none_iff obj key).mp hget)
  | some c =>
    refine ⟨c, rfl, ?_⟩
    unfold lookup
    rw [initRegistry_apply, hget]
    rfl

/-- The theorem of claim C1 at the table of the application, for the key `documents-main` and
a registry that already holds another component under that key. -/
theorem lookup_after_init_witness :
    "documents-main" ∈ components.keys ∧
    ∃ c, components.get "documents-main" = some c ∧
      lookup (initRegistry components (register Registry.empty "documents-main" "Old"))
        "documents-main" = some c :=
  ⟨by decide, lookup_after_init components _ "documents-main" (by decide)⟩

/-- Claim C2: started on the empty registry, the loop leaves registered exactly the keys of
the mapping: a key is found afterwards if and only if it is a key of the mapping. For the
table of the application these are the 68 pairwise distinct keys of the object literal. -/
theorem registered_keys_eq_mapping_keys :
    (∀ (obj : JSObject C) (key : String),
      lookup (initRegistry obj Registry.empty) key ≠ none ↔ key ∈ obj.keys) ∧
    components.keys = componentsLiteral.map Prod.fst ∧
    components.keys.length = 68 ∧
    components.keys.Nodup := by
  refine ⟨?_, by decide, by decide, by decide⟩
  intro obj key
  unfold lookup
  rw [initRegistry_apply]
  cases hget : obj.get key with
  | none =>
    have hk := (JSObject.get_eq_none_iff obj key).mp hget
    simp [Registry.empty, hk]
  | some c =>
    have hk : key ∈ obj.keys := by
      by_contra hn
      rw [(JSObject.get_eq_none_iff obj key).mpr hn] at hget
      cases hget
    simp [hk]

/-- Claim C3: running the loop a second time changes nothing: from every registry, the
registry after two runs is the registry after one run. -/
theorem initRegistry_idempotent (obj : JSObject C) (r : Registry C) :
    initRegistry obj (initRegistry obj r) = initRegistry obj r := by
  funext k
  rw [initRegistry_apply, initRegistry_apply]
  cases obj.get k <;> rfl

/-- Claim C4: the object literal `components` is not empty, it has 68 entries, no key is
written twice in it, and the object it evaluates to has exactly these entries. -/
theorem components_keys_distinct :
    componentsLiteral ≠ [] ∧
    componentsLiteral.length = 68 ∧
    (componentsLiteral.map Prod.fst).Nodup ∧
    components.props = componentsLiteral := by
  decide

/-- Claim C5: when the host call throws on an entry, after it returned normally on the
entries enumerated before, the loop ends with that very exception and with the host state
the throwing call left, and the calls made are those for the earlier keys and the one that
threw, so that no later entry is registered. When the host call throws on no entry the loop
does not throw. -/
theorem host_failure_aborts (host : Host C R E) (obj : JSObject C) (r : R) :
    (∀ (front : List String) (key : String) (back : List String) (r₁ r₂ : R) (e : E),
        obj.keys = front ++ key :: back →
        registerLoop host obj front r = (r₁, none) →
        host key (obj.get key) r₁ = (r₂, some e) →
        initComponents host obj r = (r₂, some e) ∧
        initComponents (recording host) obj (r, []) =
          ((r₂, (front ++ [key]).map (fun k => (k, obj.get k))), some e)) ∧
    ((∀ key ∈ obj.keys, ∀ s, (host key (obj.get key) s).2 = none) →
        (initComponents host obj r).2 = none) := by
  refine ⟨?_, fun hok => registerLoop_no_throw host obj obj.keys hok r⟩
  intro front key back r₁ r₂ e hkeys hfront hcall
  constructor
  · unfold initComponents
    rw [hkeys, registerLoop_append, hfront]
    simp only [registerLoop, hcall]
  · have hrec : registerLoop (recording host) obj front (r, []) =
        ((r₁, front.map (fun k => (k, obj.get k))), none) := by
      have h := registerLoop_recording host obj front r [] (by rw [hfront])
      rw [hfront] at h
      simpa using h
    unfold initComponents
    rw [hkeys, registerLoop_append, hrec]
    simp only [registerLoop, recording, hcall, List.map_append, List.map_cons, List.map_nil]

/-- The theorem of claim C5 on `{"a": CompA, "b": CompB, "c": CompC}`: a host that rejects
`"b"` ends the loop with its failure after `"a"` alone was registered, and `"c"` is never
passed to it; with `Vue.component` the loop does not throw. -/
theorem host_failure_aborts_witness :
    (initComponents (rejectingHost "b") scenarioABC JSObject.empty =
        (⟨[("a", "CompA")]⟩, some "RegistrationFailure") ∧
      initComponents (recording (rejectingHost "b")) scenarioABC (JSObject.empty, []) =
        ((⟨[("a", "CompA")]⟩, [("a", some "CompA"), ("b", some "CompB")]),
          some "RegistrationFailure")) ∧
    (initComponents vueComponent scenarioABC Registry.empty).2 = none :=
  ⟨(host_failure_aborts (rejectingHost "b") scenarioABC JSObject.empty).1
      ["a"] "b" ["c"] ⟨[("a", "CompA")]⟩ ⟨[("a", "CompA")]⟩ "RegistrationFailure"
      (by decide) (by decide) (by decide),
    (host_failure_aborts vueComponent scenarioABC Registry.empty).2
      (fun key _ s => vueComponent_no_throw key _ s)⟩

/-- Claim C6: for a mapping whose keys are pairwise distinct, the registry the loop leaves
does not depend on the order of the entries: two objects whose entries are a permutation of
one another give, from the same registry, the same registry. -/
theorem initRegistry_order_irrelevant (obj₁ obj₂ : JSObject C) (r : Registry C)
    (hperm : obj₁.props.Perm obj₂.props) (hnd : obj₁.keys.Nodup) :
    initRegistry obj₁ r = initRegistry obj₂ r := by
  funext k
  rw [initRegistry_apply, initRegistry_apply]
  unfold JSObject.get
  rw [getProp_perm hperm hnd k]

/-- The theorem of claim C6 on the two orders of `{"a": CompA, "b": CompB}`. -/
theorem initRegistry_order_irrelevant_witness :
    (JSObject.mk [("a", "CompA"), ("b", "CompB")]).props.Perm
        (JSObject.mk [("b", "CompB"), ("a", "CompA")]).props ∧
    (JSObject.mk [("a", "CompA"), ("b", "CompB")]).keys.Nodup ∧
    initRegistry (JSObject.mk [("a", "CompA"), ("b", "CompB")]) Registry.empty =
      initRegistry (JSObject.mk [("b", "CompB"), ("a", "CompA")]) Registry.empty :=
  ⟨List.Perm.swap _ _ _, by decide,
    initRegistry_order_irrelevant _ _ Registry.empty (List.Perm.swap _ _ _) (by decide)⟩

/-- Claim C7: when a key is written more than once in the sequence of entries the mapping is
built from, the component found under that key after the loop is fixed by the sequence alone,
whatever the registry held before: it is the component of the last entry with that key. -/
theorem duplicate_key_last_wins (front : List (String × C)) (key : String) (value : C)
    (back : List (String × C)) (r : Registry C) (hlast : key ∉ back.map Prod.fst) :
    lookup (initRegistry (objectLiteral (front ++ (key, value) :: back)) r) key
      = some value := by
  unfold lookup
  rw [initRegistry_apply, objectLiteral_get_last front key value back hlast]
  rfl

/-- The theorem of claim C7 on the entries `a: CompA, a: CompA2, b: CompB`, where `"a"` is
written twice. -/
theorem duplicate_key_last_wins_witness :
    "a" ∉ [("b", "CompB")].map Prod.fst ∧
    lookup (initRegistry (objectLiteral [("a", "CompA"), ("a", "CompA2"), ("b", "CompB")])
      Registry.empty) "a" = some "CompA2" :=
  ⟨by decide,
    duplicate_key_last_wins [("a", "CompA")] "a" "CompA2" [("b", "CompB")] Registry.empty
      (by decide)⟩

/-- Claim C8: when no call throws, the calls the loop makes to the host primitive are, in
order, exactly the entries of the mapping, one call per entry with the key and the value of
the entry; for the table of the application these are the 68 entries of the object
literal. -/
theorem one_call_per_entry :
    (∀ {C R E : Type} (host : Host C R E) (obj : JSObject C) (r : R),
        (initComponents host obj r).2 = none → obj.keys.Nodup →
        initComponents (recording host) obj (r, []) =
          (((initComponents host obj r).1, obj.props.map (fun p => (p.1, some p.2))),
            none)) ∧
    (initComponents (recording vueComponent) components (Registry.empty, [])).1.2 =
        componentsLiteral.map (fun p => (p.1, some p.2)) ∧
    (initComponents (recording vueComponent) components (Registry.empty, [])).1.2.length
        = 68 := by
  refine ⟨?_, by decide, by decide⟩
  intro C R E host obj r hok hnd
  unfold initComponents at hok ⊢
  rw [registerLoop_recording host obj obj.keys r [] hok, ← JSObject.calls_eq_entries obj hnd]
  rfl

/-- The theorem of claim C8 on `{"a": CompA, "b": CompB}` with `Vue.component`. -/
theorem one_call_per_entry_witness :
    (initComponents vueComponent scenarioAB Registry.empty).2 = none ∧
    scenarioAB.keys.Nodup ∧
    initComponents (recording vueComponent) scenarioAB (Registry.empty, []) =
      (((initComponents vueComponent scenarioAB Registry.empty).1,
        scenarioAB.props.map (fun p => (p.1, some p.2))), none) :=
  ⟨by decide, by decide,
    one_call_per_entry.1 vueComponent scenarioAB Registry.empty (by decide) (by decide)⟩

/-- Claim C9: on the empty mapping the loop ends without an exception, makes no call to the
host primitive and leaves the host state, and so the registry, as it was. -/
theorem empty_mapping_no_registration (host : Host C R E) (r : R) (reg : Registry C) :
    initComponents host JSObject.empty r = (r, none) ∧
    initComponents (recording host) JSObject.empty (r, []) = ((r, []), none) ∧
    initRegistry JSObject.empty reg = reg ∧
    objectLiteral ([] : List (String × C)) = JSObject.empty :=
  ⟨rfl, rfl, rfl, rfl⟩

/-- Claim C10: the loop changes the registry only at the keys of the mapping: a lookup of a
key that is not a key of the mapping returns after the loop what it returned before. -/
theorem other_keys_untouched (obj : JSObject C) (r : Registry C) (key : String)
    (hkey : key ∉ obj.keys) :
    lookup (initRegistry obj r) key = lookup r key := by
  unfold lookup
  rw [initRegistry_apply, (JSObject.get_eq_none_iff obj key).mpr hkey]
  rfl

/-- The theorem of claim C10 on `{"a": CompA, "b": CompB}` and a registry that holds a
component under `"c"`, which is still found there after the loop. -/
theorem other_keys_untouched_witness :
    "c" ∉ scenarioAB.keys ∧
    lookup (initRegistry scenarioAB (register Registry.empty "c" "CompC")) "c" =
      lookup (register Registry.empty "c" "CompC") "c" :=
  ⟨by decide, other_keys_untouched scenarioAB _ "c" (by decide)⟩

end Contract

end InitComponents
